import Mathlib

/-!
Shallow embedding of the Nimiq coin adapter (package nim) of blockbook:
the JSON-RPC connector (part_000) and the wire-to-canonical translator
(bchain/coins/nim/nimparser.go).  Go machine integers are modelled as
Nat / Int with the exact Go conversions made explicit; Go functions that
return (value, error) pairs are modelled as pairs of an Option/zero value
and an optional error; the external JSON-RPC node and the JSON decoder
are modelled as an oracle structure over an abstract raw-payload type.
-/

set_option autoImplicit false

/-- Go conversion uint32(n) applied to an int64 value: two's-complement
truncation to 32 bits, i.e. the mathematical remainder modulo 2^32. -/
def uint32ofInt64 (n : Int) : Nat :=
  (n % (2 ^ 32 : Int)).toNat

/-- Go conversion int64(v) applied to a uint64 value: values at or above
2^63 wrap around to negative numbers. -/
def int64ofUInt64 (v : Nat) : Int :=
  if v < 2 ^ 63 then (v : Int) else (v : Int) - 2 ^ 64

/-! ## Canonical shapes of the host platform (package bchain), restricted
to the fields this adapter reads or writes. -/

structure BlockHeader where
  Hash : String
  Prev : String
  Height : Nat
  Size : Int
  Time : Int
deriving DecidableEq, Repr

structure Vin where
  Addresses : List String
deriving DecidableEq, Repr

structure ScriptPubKey where
  Addresses : List String
deriving DecidableEq, Repr

structure Vout where
  N : Nat
  ValueSat : Int
  ScriptPubKey : ScriptPubKey
deriving DecidableEq, Repr

structure Tx where
  Txid : String
  Vin : List Vin
  Vout : List Vout
deriving DecidableEq, Repr

structure Block where
  BlockHeader : BlockHeader
  Txs : List Tx
deriving DecidableEq, Repr

structure BlockInfo where
  BlockHeader : BlockHeader
  Difficulty : String
  Nonce : String
  Txids : List String
deriving DecidableEq, Repr

structure MempoolEntry where
  Size : Nat
deriving DecidableEq, Repr

structure ChainInfo where
  Chain : String
deriving DecidableEq, Repr

structure Outpoint where
  Txid : String
  Vout : Int
deriving DecidableEq, Repr

/-! ## Wire shapes (nimparser.go). -/

structure rpcHeader where
  Number : Int
  Hash : String
  PoW : String
  ParentHash : String
  Nonce : String
  BodyHash : String
  AccountsHash : String
  Miner : String
  MinerAddress : String
  Difficulty : String
  ExtraData : String
  Size : Nat
  Time : Int
deriving DecidableEq, Repr

structure rpcLightBlock where
  Txs : List String
deriving DecidableEq, Repr

structure rpcTx where
  Hash : String
  BlockHash : String
  Timestamp : Nat
  Confirmations : Int
  TransactionIndex : Int
  From : String
  FromAddress : String
  To : String
  ToAddress : String
  Value : Nat
  Fee : Nat
deriving DecidableEq, Repr

structure rpcBlock where
  Txs : List rpcTx
deriving DecidableEq, Repr

/-! ## Translator (nimparser.go). -/

/-- nimHeaderToBlockHeader: direct field copy; Height is uint32(Number),
Size is int(Size) with Go 64-bit int. -/
def nimHeaderToBlockHeader (block : rpcHeader) : BlockHeader :=
  { Hash := block.Hash
    Prev := block.ParentHash
    Height := uint32ofInt64 block.Number
    Size := int64ofUInt64 block.Size
    Time := block.Time }

/-- nimTxToTx: one synthetic input carrying the sender, one synthetic
output carrying the recipient and big.NewInt(int64(tx.Value)). -/
def nimTxToTx (tx : rpcTx) : Tx :=
  { Txid := tx.Hash
    Vin := [{ Addresses := [tx.From] }]
    Vout := [{ N := 0
               ValueSat := int64ofUInt64 tx.Value
               ScriptPubKey := { Addresses := [tx.To] } }] }

def txExample : rpcTx :=
  { Hash := "h", BlockHash := "", Timestamp := 0, Confirmations := 0,
    TransactionIndex := 0, From := "a", FromAddress := "", To := "b",
    ToAddress := "", Value := 7, Fee := 1 }

example : (nimTxToTx txExample).Vout.map (fun o => o.ValueSat) = [7] := by
  decide

/-! ## Errors of the connector.  bchain.ErrBlockNotFound and
bchain.ErrTxNotFound are the host platform sentinel errors; transport
errors come from the RPC client; errorNew is errors.New, annotated is
errors.Annotatef (inner error message, context string), unknownNetwork is
the errors.Errorf value produced by Initialize. -/

inductive NimError where
  | transport : String → NimError
  | blockNotFound : NimError
  | txNotFound : NimError
  | errorNew : String → NimError
  | annotated : String → String → NimError
  | unknownNetwork : String → NimError
deriving DecidableEq, Repr

/-! ## Configuration and connector state (part_000). -/

structure Configuration where
  CoinName : String
  CoinShortcut : String
  RPCURL : String
  RPCTimeout : Int
  BlockAddressesToKeep : Int
deriving DecidableEq, Repr

structure BaseChain where
  Network : String := ""
  Testnet : Bool := false
deriving DecidableEq, Repr

/-- The rpc.Client handle; only its identity and open/closed state
matter to this adapter. -/
structure RpcClient where
  closed : Bool := false
deriving DecidableEq, Repr

structure NimiqRPC where
  base : BaseChain
  rpc : Option RpcClient
  timeout : Int
  ChainConfig : Configuration
deriving DecidableEq, Repr

/-- NewNimiqRPC: unmarshal the configuration (modelled as the outcome of
json.Unmarshal), floor BlockAddressesToKeep at 100, dial the RPC
endpoint (modelled as an oracle from URL to outcome), and build the
connector. -/
def NewNimiqRPC (unmarshalled : Except String Configuration)
    (dial : String → Except String RpcClient) :
    Option NimiqRPC × Option NimError :=
  match unmarshalled with
  | .error e => (none, some (.annotated e ("Invalid configuration file")))
  | .ok c0 =>
    -- keep at least 100 mappings block->addresses to allow rollback
    let c := if c0.BlockAddressesToKeep < 100 then
        { c0 with BlockAddressesToKeep := 100 }
      else c0
    match dial c.RPCURL with
    | .error e => (none, some (.transport e))
    | .ok rc =>
      (some { base := {}, rpc := some rc, timeout := c.RPCTimeout * 1000000000,
              ChainConfig := c }, none)

/-! ## The JSON-RPC node together with the JSON decoder, as an oracle.
Raw is the abstract type of json.RawMessage payloads; each field models
one CallContext target shape (a transport error, or the decoded value,
where a Go nil pointer is Option.none), and the unmarshal fields model
json.Unmarshal of a raw payload into each wire struct. -/

/-- The two verbose block requests GetBlock can issue ("getBlockByHash"
or "getBlockByNumber", with the tx-details flag). -/
inductive BlockCall where
  | byHash : String → Bool → BlockCall
  | byNumber : Nat → Bool → BlockCall
deriving DecidableEq, Repr

structure Node (Raw : Type) where
  blockNumber : Except String Nat
  headerByNumber : Nat → Except String (Option rpcHeader)
  headerByHash : String → Except String (Option rpcHeader)
  blockRaw : BlockCall → Except String Raw
  transactionByHash : String → Except String (Option rpcTx)
  mempoolContent : Except String (List String)
  sendRaw : String → Except String String
  unmarshalHeader : Raw → Except String rpcHeader
  unmarshalBlock : Raw → Except String rpcBlock
  unmarshalLight : Raw → Except String rpcLightBlock

/-! ## Connector operations (part_000). -/

/-- GetBestBlockHeight: "blockNumber" call. -/
def GetBestBlockHeight {Raw : Type} (n : Node Raw) : Nat × Option NimError :=
  match n.blockNumber with
  | .error e => (0, some (.transport e))
  | .ok headNum => (headNum, none)

/-- GetBestBlockHash: resolve the head height, then fetch that header by
number; empty node result is bchain.ErrBlockNotFound. -/
def GetBestBlockHash {Raw : Type} (n : Node Raw) : String × Option NimError :=
  match GetBestBlockHeight n with
  | (_, some e) => ("", some e)
  | (headNum, none) =>
    match n.headerByNumber headNum with
    | .error e => ("", some (.transport e))
    | .ok none => ("", some .blockNotFound)
    | .ok (some block) => (block.Hash, none)

/-- GetBlockHash: fetch the header at the given height; empty node
result is bchain.ErrBlockNotFound. -/
def GetBlockHash {Raw : Type} (n : Node Raw) (height : Nat) :
    String × Option NimError :=
  match n.headerByNumber height with
  | .error e => ("", some (.transport e))
  | .ok none => ("", some .blockNotFound)
  | .ok (some block) => (block.Hash, none)

/-- GetBlockHeader: fetch the header by hash, map to canonical; empty
node result is bchain.ErrBlockNotFound. -/
def GetBlockHeader {Raw : Type} (n : Node Raw) (hash : String) :
    Option BlockHeader × Option NimError :=
  match n.headerByHash hash with
  | .error e => (none, some (.transport e))
  | .ok none => (none, some .blockNotFound)
  | .ok (some block) => (some (nimHeaderToBlockHeader block), none)

/-- The context string of errors.Annotatef in GetBlock:
"hash %v, height %v". -/
def blockErrCtx (hash : String) (height : Nat) : String :=
  "hash " ++ hash ++ ", height " ++ toString height

/-- The request GetBlock issues: hash has precedence if both passed. -/
def blockCallFor (hash : String) (height : Nat) : BlockCall :=
  if hash ≠ "" then .byHash hash true else .byNumber height true

/-- GetBlock: issue the verbose block request, unmarshal the same raw
payload twice (header view and full-transaction body view), map the
header and each transaction. -/
def GetBlock {Raw : Type} (n : Node Raw) (hash : String) (height : Nat) :
    Option Block × Option NimError :=
  match n.blockRaw (blockCallFor hash height) with
  | .error e => (none, some (.transport e))
  | .ok raw =>
    match n.unmarshalHeader raw with
    | .error e => (none, some (.annotated e (blockErrCtx hash height)))
    | .ok head =>
      match n.unmarshalBlock raw with
      | .error e => (none, some (.annotated e (blockErrCtx hash height)))
      | .ok body =>
        (some { BlockHeader := nimHeaderToBlockHeader head,
                Txs := body.Txs.map nimTxToTx }, none)

/-- GetBlockInfo: issue "getBlockByHash" with tx details off, unmarshal
the same raw payload as header view and light body view. -/
def GetBlockInfo {Raw : Type} (n : Node Raw) (hash : String) :
    Option BlockInfo × Option NimError :=
  match n.blockRaw (.byHash hash false) with
  | .error e => (none, some (.transport e))
  | .ok raw =>
    match n.unmarshalHeader raw with
    | .error e => (none, some (.annotated e ("hash " ++ hash)))
    | .ok head =>
      match n.unmarshalLight raw with
      | .error e => (none, some (.annotated e ("hash " ++ hash)))
      | .ok body =>
        (some { BlockHeader := nimHeaderToBlockHeader head,
                Difficulty := head.Difficulty, Nonce := head.Nonce,
                Txids := body.Txs }, none)

/-- GetTransaction: fetch one transaction by id; empty node result is
bchain.ErrTxNotFound. -/
def GetTransaction {Raw : Type} (n : Node Raw) (txid : String) :
    Option Tx × Option NimError :=
  match n.transactionByHash txid with
  | .error e => (none, some (.transport e))
  | .ok none => (none, some .txNotFound)
  | .ok (some tx) => (some (nimTxToTx tx), none)

/-- GetMempool: "mempoolContent" with the verbose flag off. -/
def GetMempool {Raw : Type} (n : Node Raw) :
    Option (List String) × Option NimError :=
  match n.mempoolContent with
  | .error e => (none, some (.transport e))
  | .ok txHashes => (some txHashes, none)

/-- SendRawTransaction: forward the hex payload. -/
def SendRawTransaction {Raw : Type} (n : Node Raw) (hex : String) :
    String × Option NimError :=
  match n.sendRaw hex with
  | .error e => ("", some (.transport e))
  | .ok txHash => (txHash, none)

/-! ## Operations the adapter does not support: each returns its fixed
errors.New value, whatever the arguments. -/

def GetChainInfo (_b : NimiqRPC) : Option ChainInfo × Option NimError :=
  (none, some (.errorNew ("not implemented")))

def GetTransactionForMempool (_txid : String) : Option Tx × Option NimError :=
  (none, some (.errorNew ("GetTransactionForMempool: not supported")))

def GetTransactionSpecific (_tx : Tx) :
    Option (List String) × Option NimError :=
  (none, some (.errorNew ("GetTransactionSpecific: not supported")))

def EstimateFee (_blocks : Int) : Int × Option NimError :=
  (0, some (.errorNew ("GetMempoolEntry: not supported")))

def EstimateSmartFee (_blocks : Int) (_conservative : Bool) :
    Int × Option NimError :=
  (0, some (.errorNew ("EstimateSmartFee: not supported")))

def ResyncMempool (_onNewTxAddr : String → String → Unit) :
    Int × Option NimError :=
  (0, some (.errorNew ("not implemented")))

def GetMempoolTransactions (_address : String) :
    Option (List Outpoint) × Option NimError :=
  (none, some (.errorNew ("GetMempoolTransactions: not supported")))

def GetMempoolTransactionsForAddrDesc (_addrDesc : List Nat) :
    Option (List Outpoint) × Option NimError :=
  (none, some (.errorNew ("GetMempoolTransactionsForAddrDesc: not supported")))

def GetMempoolEntry (_txid : String) :
    Option MempoolEntry × Option NimError :=
  (none, some (.errorNew ("GetMempoolEntry: not supported")))

/-! ## Shutdown. -/

/-- Shutdown: close the RPC handle if one is held; always returns a nil
error. -/
def Shutdown (b : NimiqRPC) : NimiqRPC × Option NimError :=
  match b.rpc with
  | some c => ({ b with rpc := some { c with closed := true } }, none)
  | none => (b, none)

/-! ## Initialize and the network classification. -/

/-- The three hex-encoded genesis hashes of the external
networks package (networks.MainNet.Hash, networks.TestNet.Hash,
networks.DevNet.Hash), abstracted as parameters. -/
structure GenesisTable where
  mainNetHash : String
  testNetHash : String
  devNetHash : String
deriving DecidableEq, Repr

/-- The switch of Initialize on the genesis hash: the matched network
label and testnet flag, or none on the default branch. -/
def classifyNetwork (g : GenesisTable) (hash : String) :
    Option (String × Bool) :=
  if hash = g.mainNetHash then some ("mainnet", false)
  else if hash = g.testNetHash then some ("testnet", true)
  else if hash = g.devNetHash then some ("devnet", true)
  else none

/-- Initialize: fetch the block at height 1 via GetBlock("", 1), then
switch on its hash; a match assigns Network and Testnet on the embedded
BaseChain, the default branch returns errors.Errorf and assigns
nothing. -/
def Initialize {Raw : Type} (g : GenesisTable) (n : Node Raw)
    (b : NimiqRPC) : NimiqRPC × Option NimError :=
  match GetBlock n "" 1 with
  | (_, some e) => (b, some e)
  | (some genesis, none) =>
    match classifyNetwork g genesis.BlockHeader.Hash with
    | some (network, testnet) =>
      ({ b with
          base := { b.base with Network := network, Testnet := testnet } },
        none)
    | none => (b, some (.unknownNetwork genesis.BlockHeader.Hash))
  | (none, none) =>
    -- unreachable: GetBlock never returns a nil block with a nil error
    (b, some (.unknownNetwork ""))

/-- Helper: the connector state after a successful network
classification. -/
def withNetwork (b : NimiqRPC) (network : String) (testnet : Bool) :
    NimiqRPC :=
  { b with base := { b.base with Network := network, Testnet := testnet } }

/-! ## Concrete fixtures used by witnesses and counterexamples. -/

def cfgLow : Configuration :=
  { CoinName := "Nimiq", CoinShortcut := "NIM", RPCURL := "ws://127.0.0.1:8648",
    RPCTimeout := 25, BlockAddressesToKeep := 42 }

def dialOk : String → Except String RpcClient := fun _ => .ok {}

def sLow : NimiqRPC :=
  { base := {}, rpc := some {}, timeout := 25000000000,
    ChainConfig := { cfgLow with BlockAddressesToKeep := 100 } }

def rpcNeverOpened : NimiqRPC :=
  { base := {}, rpc := none, timeout := 0, ChainConfig := cfgLow }

def hX : String := "x"

def hdrMain : rpcHeader :=
  { Number := 1, Hash := "m", PoW := "", ParentHash := "p", Nonce := "0",
    BodyHash := "", AccountsHash := "", Miner := "", MinerAddress := "",
    Difficulty := "1", ExtraData := "", Size := 3, Time := 5 }

/-- A node over the trivial raw-payload type whose every call succeeds
with the given decoded values. -/
def unitNode (hdr : rpcHeader) (body : rpcBlock) (light : rpcLightBlock) :
    Node Unit :=
  { blockNumber := .ok 1
    headerByNumber := fun _ => .ok (some hdr)
    headerByHash := fun _ => .ok (some hdr)
    blockRaw := fun _ => .ok ()
    transactionByHash := fun _ => .ok none
    mempoolContent := .ok []
    sendRaw := fun _ => .ok ""
    unmarshalHeader := fun _ => .ok hdr
    unmarshalBlock := fun _ => .ok body
    unmarshalLight := fun _ => .ok light }

def nodeMain : Node Unit := unitNode hdrMain { Txs := [] } { Txs := [] }

/-- A node whose header and transaction lookups return the Go nil
pointer (a JSON null result). -/
def nodeEmpty : Node Unit :=
  { nodeMain with
      headerByNumber := fun _ => .ok none
      headerByHash := fun _ => .ok none
      transactionByHash := fun _ => .ok none }

def blkMain : Block := { BlockHeader := nimHeaderToBlockHeader hdrMain, Txs := [] }

def gT : GenesisTable := { mainNetHash := "m", testNetHash := "t", devNetHash := "d" }

def txBig : rpcTx := { txExample with Value := 9223372036854775808 }

def onNewTxAddrNoop : String → String → Unit := fun _ _ => ()

/-! ## Claim theorems. -/

/-- Claim C6: construction floors the retained block-to-address mapping
count at 100: a configured value below 100 becomes exactly 100, a value
of 100 or more is kept unchanged. -/
theorem newNimiqRPC_floors_block_addresses (c : Configuration)
    (dial : String → Except String RpcClient) (s : NimiqRPC)
    (h : (NewNimiqRPC (Except.ok c) dial).1 = some s) :
    (c.BlockAddressesToKeep < 100 → s.ChainConfig.BlockAddressesToKeep = 100) ∧
    (100 ≤ c.BlockAddressesToKeep →
      s.ChainConfig.BlockAddressesToKeep = c.BlockAddressesToKeep) := by
  unfold NewNimiqRPC at h
  by_cases hlt : c.BlockAddressesToKeep < 100
  · simp only [hlt, if_true, if_pos] at h
    constructor
    · intro _
      cases hd : dial ({ c with BlockAddressesToKeep := 100 } : Configuration).RPCURL with
      | error e => rw [hd] at h; simp at h
      | ok rc => rw [hd] at h; simp at h; rw [← h]
    · intro hge; exact absurd hlt (not_lt.mpr hge)
  · simp only [hlt, if_false, if_neg] at h
    constructor
    · intro hlt2; exact absurd hlt2 hlt
    · intro _
      cases hd : dial c.RPCURL with
      | error e => rw [hd] at h; simp at h
      | ok rc => rw [hd] at h; simp at h; rw [← h]

/-- Witness for C6 at a concrete configuration with
block_addresses_to_keep = 42. -/
theorem newNimiqRPC_floors_block_addresses_witness :
    (NewNimiqRPC (Except.ok cfgLow) dialOk).1 = some sLow ∧
    cfgLow.BlockAddressesToKeep < 100 ∧
    sLow.ChainConfig.BlockAddressesToKeep = 100 :=
  ⟨by decide, by decide,
    (newNimiqRPC_floors_block_addresses cfgLow dialOk sLow (by decide)).1
      (by decide)⟩

/-- Claim C8: Shutdown never returns an error; calling it twice is also
error-free, and on a connector whose RPC handle was never opened it is a
no-op. -/
theorem shutdown_idempotent_no_error :
    (∀ b : NimiqRPC, (Shutdown b).2 = none) ∧
    (∀ b : NimiqRPC, (Shutdown (Shutdown b).1).2 = none) ∧
    (∀ b : NimiqRPC, b.rpc = none → Shutdown b = (b, none)) := by
  refine ⟨fun b => ?_, fun b => ?_, fun b h => ?_⟩
  · cases hb : b.rpc <;> simp [Shutdown, hb]
  · cases hb : b.rpc <;> simp [Shutdown, hb]
  · simp [Shutdown, h]

/-- Witness for C8 on a connector that was never opened. -/
theorem shutdown_idempotent_no_error_witness :
    Shutdown rpcNeverOpened = (rpcNeverOpened, none) :=
  shutdown_idempotent_no_error.2.2 rpcNeverOpened rfl

/-- Claim C3, counterexample: the mempool-resynchronization operation is
in the claimed list, yet its designated message is "not implemented",
which does not contain "not supported", so a caller pattern-matching on
"not supported" misses it. -/
theorem resyncMempool_message_no_not_supported :
    ResyncMempool onNewTxAddrNoop = (0, some (.errorNew ("not implemented"))) ∧
    ¬ (("not supported").toList <:+: ("not implemented").toList) :=
  ⟨rfl, by decide⟩

/-- Claim C3 as amended: every explicitly unsupported operation returns
its designated error with a fixed message, never a nil/empty success,
and the message is the same whatever the arguments; the message contains
"not supported" for all of them except mempool resynchronization and the
chain-info query, whose designated message is "not implemented". -/
theorem unsupported_ops_stable_errors :
    (∀ txid : String, GetTransactionForMempool txid =
      (none, some (.errorNew ("GetTransactionForMempool: not supported")))) ∧
    (∀ tx : Tx, GetTransactionSpecific tx =
      (none, some (.errorNew ("GetTransactionSpecific: not supported")))) ∧
    (∀ blocks : Int, EstimateFee blocks =
      (0, some (.errorNew ("GetMempoolEntry: not supported")))) ∧
    (∀ (blocks : Int) (conservative : Bool),
      EstimateSmartFee blocks conservative =
        (0, some (.errorNew ("EstimateSmartFee: not supported")))) ∧
    (∀ onNewTxAddr : String → String → Unit, ResyncMempool onNewTxAddr =
      (0, some (.errorNew ("not implemented")))) ∧
    (∀ address : String, GetMempoolTransactions address =
      (none, some (.errorNew ("GetMempoolTransactions: not supported")))) ∧
    (∀ addrDesc : List Nat, GetMempoolTransactionsForAddrDesc addrDesc =
      (none,
        some (.errorNew ("GetMempoolTransactionsForAddrDesc: not supported")))) ∧
    (∀ txid : String, GetMempoolEntry txid =
      (none, some (.errorNew ("GetMempoolEntry: not supported")))) ∧
    (∀ b : NimiqRPC, GetChainInfo b =
      (none, some (.errorNew ("not implemented")))) ∧
    (("not supported").toList <:+:
      ("GetTransactionForMempool: not supported").toList) ∧
    (("not supported").toList <:+:
      ("GetTransactionSpecific: not supported").toList) ∧
    (("not supported").toList <:+: ("GetMempoolEntry: not supported").toList) ∧
    (("not supported").toList <:+: ("EstimateSmartFee: not supported").toList) ∧
    (("not supported").toList <:+:
      ("GetMempoolTransactions: not supported").toList) ∧
    (("not supported").toList <:+:
      ("GetMempoolTransactionsForAddrDesc: not supported").toList) :=
  ⟨fun _ => rfl, fun _ => rfl, fun _ => rfl, fun _ _ => rfl, fun _ => rfl,
    fun _ => rfl, fun _ => rfl, fun _ => rfl, fun _ => rfl, by decide,
    by decide, by decide, by decide, by decide, by decide⟩

/-- Claim C10: simple fee estimation returns the very message of the
mempool-entry lookup, "GetMempoolEntry: not supported", whatever the
arguments, so its message does not name the operation actually called. -/
theorem estimateFee_misnamed_message :
    (∀ blocks : Int, EstimateFee blocks =
      (0, some (.errorNew ("GetMempoolEntry: not supported")))) ∧
    (∀ (blocks : Int) (txid : String),
      (EstimateFee blocks).2 = (GetMempoolEntry txid).2) ∧
    ¬ (("EstimateFee").toList <:+: ("GetMempoolEntry: not supported").toList) :=
  ⟨fun _ => rfl, fun _ _ => rfl, by decide⟩

/-- Claim C2, counterexample: at a wire transaction whose value is 2^63
the canonical output value is not the wire value (it wraps to a negative
number). -/
theorem nimTxToTx_value_not_wire_value :
    (nimTxToTx txBig).Vout.map (fun o => o.ValueSat) ≠ [(txBig.Value : Int)] :=
  by decide

/-- Claim C2 as amended: the mapping always produces exactly one input
whose address list is the sender identity and exactly one output whose
address list is the recipient identity; the output value is the wire
value converted through a signed 64-bit integer, hence equal to the wire
value exactly when the wire value is below 2^63. -/
theorem nimTxToTx_one_in_one_out (tx : rpcTx) :
    (nimTxToTx tx).Vin = [{ Addresses := [tx.From] }] ∧
    (nimTxToTx tx).Vout =
      [{ N := 0, ValueSat := int64ofUInt64 tx.Value,
         ScriptPubKey := { Addresses := [tx.To] } }] ∧
    (tx.Value < 2 ^ 63 →
      (nimTxToTx tx).Vout.map (fun o => o.ValueSat) = [(tx.Value : Int)]) := by
  refine ⟨rfl, rfl, fun h => ?_⟩
  show [int64ofUInt64 tx.Value] = [(tx.Value : Int)]
  simp only [int64ofUInt64]
  rw [if_pos h]

/-- Witness for the amended C2 at a concrete small-value transaction. -/
theorem nimTxToTx_one_in_one_out_witness :
    txExample.Value < 2 ^ 63 ∧
    (nimTxToTx txExample).Vout.map (fun o => o.ValueSat) =
      [(txExample.Value : Int)] :=
  ⟨by decide, (nimTxToTx_one_in_one_out txExample).2.2 (by decide)⟩

/-- Claim C9: the wire value is a uint64 converted through int64 before
becoming the canonical big-integer value, so any wire value of at least
2^63 yields a canonical output value equal to the wire value minus 2^64,
which is negative. -/
theorem nimTxToTx_value_wraps (tx : rpcTx) (h64 : tx.Value < 2 ^ 64)
    (h63 : 2 ^ 63 ≤ tx.Value) :
    (nimTxToTx tx).Vout.map (fun o => o.ValueSat) =
      [(tx.Value : Int) - 2 ^ 64] ∧
    (tx.Value : Int) - 2 ^ 64 < 0 := by
  have hnlt : ¬ tx.Value < 2 ^ 63 := not_lt.mpr h63
  constructor
  · show [int64ofUInt64 tx.Value] = [(tx.Value : Int) - 2 ^ 64]
    simp only [int64ofUInt64]
    rw [if_neg hnlt]
  · have h : (tx.Value : Int) < 2 ^ 64 := by exact_mod_cast h64
    omega

/-- Witness for C9 at a wire transaction of value exactly 2^63. -/
theorem nimTxToTx_value_wraps_witness :
    txBig.Value < 2 ^ 64 ∧ 2 ^ 63 ≤ txBig.Value ∧
    (nimTxToTx txBig).Vout.map (fun o => o.ValueSat) =
      [(txBig.Value : Int) - 2 ^ 64] :=
  ⟨by decide, by decide,
    (nimTxToTx_value_wraps txBig (by decide) (by decide)).1⟩

/-- Claim C1: with the three genesis hashes pairwise distinct,
initialization is a pure function of the fetched genesis hash: each
known hash yields its network label and testnet flag with no error, any
other hash yields the classification error and leaves the connector
unchanged. -/
theorem initialize_classifies (Raw' : Type) (g : GenesisTable) (n : Node Raw')
    (b : NimiqRPC) (blk : Block)
    (hget : GetBlock n "" 1 = (some blk, none))
    (hmt : g.mainNetHash ≠ g.testNetHash)
    (hmd : g.mainNetHash ≠ g.devNetHash)
    (htd : g.testNetHash ≠ g.devNetHash) :
    (blk.BlockHeader.Hash = g.mainNetHash →
      Initialize g n b = (withNetwork b ("mainnet") false, none)) ∧
    (blk.BlockHeader.Hash = g.testNetHash →
      Initialize g n b = (withNetwork b ("testnet") true, none)) ∧
    (blk.BlockHeader.Hash = g.devNetHash →
      Initialize g n b = (withNetwork b ("devnet") true, none)) ∧
    (blk.BlockHeader.Hash ≠ g.mainNetHash →
      blk.BlockHeader.Hash ≠ g.testNetHash →
      blk.BlockHeader.Hash ≠ g.devNetHash →
      Initialize g n b = (b, some (.unknownNetwork blk.BlockHeader.Hash))) := by
  refine ⟨fun h => ?_, fun h => ?_, fun h => ?_, fun h1 h2 h3 => ?_⟩
  · simp [Initialize, hget, classifyNetwork, withNetwork, h]
  · simp [Initialize, hget, classifyNetwork, withNetwork, h, Ne.symm hmt]
  · simp [Initialize, hget, classifyNetwork, withNetwork, h, Ne.symm hmd,
      Ne.symm htd]
  · simp [Initialize, hget, classifyNetwork, h1, h2, h3]

/-- Witness for C1 on a node whose genesis block carries the main
network hash of a concrete, pairwise-distinct genesis table. -/
theorem initialize_classifies_witness :
    GetBlock nodeMain "" 1 = (some blkMain, none) ∧
    Initialize gT nodeMain rpcNeverOpened =
      (withNetwork rpcNeverOpened ("mainnet") false, none) :=
  ⟨by decide,
    (initialize_classifies Unit gT nodeMain rpcNeverOpened blkMain (by decide)
      (by decide) (by decide) (by decide)).1 (by decide)⟩

/-- Claim C4: with a non-empty hash the full-block fetch issues the
hash-based lookup and the block it returns does not depend on the height
argument; the height-based lookup is issued only when the hash is
empty. -/
theorem getBlock_hash_precedence (Raw' : Type) (n : Node Raw') (hash : String)
    (h1 h2 : Nat) :
    (hash ≠ "" → blockCallFor hash h1 = BlockCall.byHash hash true ∧
      (GetBlock n hash h1).1 = (GetBlock n hash h2).1) ∧
    (hash = "" → blockCallFor hash h1 = BlockCall.byNumber h1 true) := by
  constructor
  · intro hne
    have hc : ∀ ht : Nat, blockCallFor hash ht = BlockCall.byHash hash true :=
      fun ht => by simp [blockCallFor, hne]
    refine ⟨hc h1, ?_⟩
    unfold GetBlock
    rw [hc h1, hc h2]
    cases n.blockRaw (BlockCall.byHash hash true) with
    | error e => rfl
    | ok raw =>
      dsimp only
      cases n.unmarshalHeader raw with
      | error e => rfl
      | ok head =>
        dsimp only
        cases n.unmarshalBlock raw with
        | error e => rfl
        | ok body => rfl
  · intro he
    simp [blockCallFor, he]

/-- Witness for C4 at a non-empty hash and two different heights. -/
theorem getBlock_hash_precedence_witness :
    hX ≠ "" ∧ blockCallFor hX 5 = BlockCall.byHash hX true ∧
    (GetBlock nodeMain hX 5).1 = (GetBlock nodeMain hX 9).1 :=
  ⟨by decide,
    ((getBlock_hash_precedence Unit nodeMain hX 5 9).1 (by decide)).1,
    ((getBlock_hash_precedence Unit nodeMain hX 5 9).1 (by decide)).2⟩

/-- Claim C5: a null node result makes transaction-by-id return
bchain.ErrTxNotFound and the three header lookups return
bchain.ErrBlockNotFound; both sentinels differ from every transport
error, and the two pointer-returning lookups never return a nil value
with a nil error. -/
theorem notFound_lookups (Raw' : Type) (n : Node Raw') (txid hash : String)
    (height : Nat) :
    (n.transactionByHash txid = .ok none →
      GetTransaction n txid = (none, some NimError.txNotFound)) ∧
    (n.headerByHash hash = .ok none →
      GetBlockHeader n hash = (none, some NimError.blockNotFound)) ∧
    (n.headerByNumber height = .ok none →
      GetBlockHash n height = ("", some NimError.blockNotFound)) ∧
    (∀ headNum : Nat, GetBestBlockHeight n = (headNum, none) →
      n.headerByNumber headNum = .ok none →
      GetBestBlockHash n = ("", some NimError.blockNotFound)) ∧
    (∀ e : String, NimError.txNotFound ≠ NimError.transport e ∧
      NimError.blockNotFound ≠ NimError.transport e) ∧
    GetTransaction n txid ≠ (none, none) ∧
    GetBlockHeader n hash ≠ (none, none) := by
  refine ⟨fun h => ?_, fun h => ?_, fun h => ?_, fun headNum hh h => ?_,
    fun e => ⟨fun hcon => (nomatch hcon), fun hcon => (nomatch hcon)⟩, ?_, ?_⟩
  · simp [GetTransaction, h]
  · simp [GetBlockHeader, h]
  · simp [GetBlockHash, h]
  · unfold GetBestBlockHash
    rw [hh]
    simp [h]
  · unfold GetTransaction
    cases n.transactionByHash txid with
    | error e => simp
    | ok o =>
      cases o with
      | none => simp
      | some tx => simp
  · unfold GetBlockHeader
    cases n.headerByHash hash with
    | error e => simp
    | ok o =>
      cases o with
      | none => simp
      | some hd => simp

/-- Witness for C5 on a node whose lookups all return null results. -/
theorem notFound_lookups_witness :
    GetTransaction nodeEmpty hX = (none, some NimError.txNotFound) ∧
    GetBlockHeader nodeEmpty hX = (none, some NimError.blockNotFound) ∧
    GetBlockHash nodeEmpty 3 = ("", some NimError.blockNotFound) ∧
    GetBestBlockHash nodeEmpty = ("", some NimError.blockNotFound) :=
  ⟨(notFound_lookups Unit nodeEmpty hX hX 3).1 rfl,
    (notFound_lookups Unit nodeEmpty hX hX 3).2.1 rfl,
    (notFound_lookups Unit nodeEmpty hX hX 3).2.2.1 rfl,
    (notFound_lookups Unit nodeEmpty hX hX 3).2.2.2.1 1 rfl rfl⟩

/-- Claim C7: over the same hash, when the node answers both the
verbose and the non-verbose block request with payloads whose header
view decodes to the same wire header, the full-block fetch and the
block-summary fetch succeed and their canonical headers agree on hash,
parent hash, height, size and time. -/
theorem getBlock_getBlockInfo_header_agree (Raw' : Type) (n : Node Raw')
    (hash : String) (height : Nat) (raw1 raw2 : Raw') (hd : rpcHeader)
    (body : rpcBlock) (light : rpcLightBlock) (hne : hash ≠ "")
    (hr1 : n.blockRaw (BlockCall.byHash hash true) = .ok raw1)
    (hr2 : n.blockRaw (BlockCall.byHash hash false) = .ok raw2)
    (hh1 : n.unmarshalHeader raw1 = .ok hd)
    (hh2 : n.unmarshalHeader raw2 = .ok hd)
    (hb : n.unmarshalBlock raw1 = .ok body)
    (hl : n.unmarshalLight raw2 = .ok light) :
    ∃ (blk : Block) (info : BlockInfo),
      GetBlock n hash height = (some blk, none) ∧
      GetBlockInfo n hash = (some info, none) ∧
      blk.BlockHeader.Hash = info.BlockHeader.Hash ∧
      blk.BlockHeader.Prev = info.BlockHeader.Prev ∧
      blk.BlockHeader.Height = info.BlockHeader.Height ∧
      blk.BlockHeader.Size = info.BlockHeader.Size ∧
      blk.BlockHeader.Time = info.BlockHeader.Time := by
  have hc : blockCallFor hash height = BlockCall.byHash hash true := by
    simp [blockCallFor, hne]
  refine ⟨{ BlockHeader := nimHeaderToBlockHeader hd, Txs := body.Txs.map nimTxToTx },
    { BlockHeader := nimHeaderToBlockHeader hd, Difficulty := hd.Difficulty, Nonce := hd.Nonce, Txids := light.Txs },
    ?_, ?_, rfl, rfl, rfl, rfl, rfl⟩
  · unfold GetBlock
    rw [hc, hr1]
    simp [hh1, hb]
  · unfold GetBlockInfo
    rw [hr2]
    simp [hh2, hl]

/-- Witness for C7 on a concrete consistent node. -/
theorem getBlock_getBlockInfo_header_agree_witness :
    ∃ (blk : Block) (info : BlockInfo),
      GetBlock nodeMain hX 2 = (some blk, none) ∧
      GetBlockInfo nodeMain hX = (some info, none) ∧
      blk.BlockHeader.Hash = info.BlockHeader.Hash ∧
      blk.BlockHeader.Prev = info.BlockHeader.Prev ∧
      blk.BlockHeader.Height = info.BlockHeader.Height ∧
      blk.BlockHeader.Size = info.BlockHeader.Size ∧
      blk.BlockHeader.Time = info.BlockHeader.Time :=
  getBlock_getBlockInfo_header_agree Unit nodeMain hX 2 () () hdrMain
    { Txs := [] } { Txs := [] } (by decide) rfl rfl rfl rfl rfl rfl
